import Mathlib

/-!
A verification development for the agentic-loop core of the repository:
the tool registry and tool invocation engine (src/shared/registry.py,
src/tool_selection/base_tool.py, src/shared/tool_set_registry.py), the
agent loop decision layer (src/agentic_loop/agent_reasoner.py,
src/agentic_loop/manual_agent_loop.py), the activity controller
(src/agentic_loop/activity_manager.py) and the bounded history manager
(src/agentic_loop/response_formatter.py).

The Python code is embedded shallowly: pure functions become Lean
functions, Python exceptions become Except values, and the external
LLM calls (the decision oracle and the history compressor) become
function parameters, since the source treats them as opaque
collaborators.  Python truthiness on Optional values and the semantics
of negative list slices are modelled explicitly by the py* helpers
below.  Floating-point wall-clock times are modelled as Nat time units:
no claim here depends on float arithmetic, only on comparisons and on
fields being carried through.  Confidence scores (floats in [0,1] in
the source) are modelled as rationals.
-/

/-- Python `x or default` for an optional integer: `None` and `0` are
falsy, so both fall through to the default.  Used for
`conversation_state.max_iterations or self.max_iterations`
(manual_agent_loop.py line 89). -/
def pyOrNat : Option Nat → Nat → Nat
  | none, d => d
  | some 0, d => d
  | some (n + 1), _ => n + 1

/-- Python `x or default` for an optional string: `None` and the empty
string are falsy.  Used for `final_decision.final_response or ...` and
`conversation_state.tool_set_name or "unknown"`
(activity_manager.py lines 222 and 226). -/
def pyOrStr : Option String → String → String
  | none, d => d
  | some s, d => if s = "" then d else s

/-- Python truthiness of an `Optional[List[...]]` value: falsy when
`None` or the empty list.  Used for `reasoning_output.tool_calls`
tests in agent_reasoner.py lines 161 and 179 and
manual_agent_loop.py line 205. -/
def optListTruthy : Option (List α) → Bool
  | none => false
  | some [] => false
  | some (_ :: _) => true

/-- Python falsiness of an `Optional[str]` value: `None` and `""` are
falsy.  Used for `if not reasoning_output.final_response`
(agent_reasoner.py lines 157 and 184). -/
def optStrFalsy : Option String → Bool
  | none => true
  | some s => s = ""

/-- Python slice `xs[-m:]`.  For `m = 0` the slice index is `-0 = 0`,
so the WHOLE list is returned, not the last zero elements; for
`m ≥ length` the slice clamps to the whole list.  Used for
`entries[-self.max_history_length:]`
(response_formatter.py lines 259 and 332). -/
def pySliceLast (m : Nat) (xs : List α) : List α :=
  if m = 0 then xs else xs.drop (xs.length - m)

/-- Python slice `xs[:-m]`.  For `m = 0` this is `xs[:0] = []`; for
`m ≥ length` it is also `[]`.  Used for
`entries[:-self.max_history_length]`
(response_formatter.py line 333). -/
def pySliceDropLast (m : Nat) (xs : List α) : List α :=
  if m = 0 then [] else xs.take (xs.length - m)

/-- shared/models.py `ToolCall`: a tool name plus an argument map.
The `Dict[str, Any]` argument map is modelled as an association list of
opaque string keys and values; no embedded operation inspects the
values other than passing them to a tool. -/
structure ToolCall where
  tool_name : String
  arguments : List (String × String)
deriving DecidableEq, Inhabited

/-- shared/models.py `ToolExecutionResult`.  The source model also
declares `error_type: Optional[str]` (lines 193 to 196), which
`ToolRegistry.execute_tool` never sets; it is kept here because claim
C5 is about whether a structured error kind is reported. -/
structure ToolExecutionResult where
  tool_name : String
  success : Bool
  result : Option String
  error : Option String
  error_type : Option String
  execution_time : Nat
  parameters : List (String × String)
deriving DecidableEq, Inhabited

/-- shared/models.py `ConversationEntry`. -/
structure ConversationEntry where
  iteration : Nat
  user_input : String
  response : String
  tool_calls_made : List ToolCall
  tool_results : List ToolExecutionResult
  timestamp : Nat
deriving DecidableEq, Inhabited

/-- shared/models.py `ConversationState` (the fields read or written by
the embedded operations; the bookkeeping fields `total_tool_calls`,
`errors_encountered` and `last_confidence` of the Pydantic model are
only used by the unused helper `add_iteration_result` and are omitted). -/
structure ConversationState where
  user_query : String
  goal : Option String
  iteration_count : Nat
  conversation_history : List ConversationEntry
  last_tool_results : Option (List ToolExecutionResult)
  activity_id : Option String
  max_iterations : Option Nat
  start_time : Option Nat
  tool_set_name : Option String
deriving DecidableEq, Inhabited

/-- shared/models.py `ActionType` (lines 57 to 62).  The enum has
exactly the four members below.  Note that manual_agent_loop.py
line 210 references `ActionType.CONTINUE`, which is NOT a member of
this enum: evaluating that attribute access raises AttributeError at
runtime.  The embedding keeps the enum faithful to the source and
models that access as a raised exception (see createActionDecision). -/
inductive ActionType where
  | TOOL_EXECUTION
  | FINAL_RESPONSE
  | ERROR_RECOVERY
  | GOAL_CHECK
deriving DecidableEq, Inhabited

/-- shared/models.py `ReasoningOutput`: the decision object produced by
the external reasoning call (the decision oracle). -/
structure ReasoningOutput where
  overall_reasoning : String
  confidence : ℚ
  should_use_tools : Bool
  tool_calls : Option (List ToolCall)
  parallel_safe : Bool
  should_continue : Bool
  continuation_reasoning : String
  final_response : Option String
  suggested_next_action : Option String
deriving DecidableEq, Inhabited

/-- shared/models.py `ActionDecision` (the fields set by
manual_agent_loop.py; `processing_time` and `tokens_used` are never
assigned there and are omitted). -/
structure ActionDecision where
  action_type : ActionType
  reasoning : String
  tool_calls : List ToolCall
  should_continue : Bool
  continuation_reasoning : Option String
  final_response : Option String
  confidence_score : ℚ
  iteration_count : Nat
  max_iterations : Nat
deriving DecidableEq, Inhabited

/-- shared/models.py `ActivityResult`. -/
structure ActivityResult where
  activity_id : String
  status : String
  final_response : String
  total_iterations : Nat
  total_tool_calls : Nat
  execution_time : Nat
  tool_set_name : String
  tools_used : List String
  errors_encountered : List String
  conversation_state : ConversationState
deriving DecidableEq, Inhabited

/-- tool_selection/base_tool.py `BaseTool` (an instantiated tool).
`name` is the class attribute `NAME` / `metadata.name`.  `validate`
models the argument-schema check performed by `validate_and_execute`
(the `args_model` Pydantic validation, the dynamically created model of
the `arguments` list, or the trivial check when no schema is declared):
it returns the validated arguments or the text of the raised
pydantic.ValidationError.  `run` models the tool body `execute`, which
returns a value or raises (text of the exception). -/
structure BaseTool where
  name : String
  validate : List (String × String) → Except String (List (String × String))
  run : List (String × String) → Except String String

/-- tool_selection/base_tool.py `BaseTool.validate_and_execute`
(lines 123 to 163): validate the arguments against the declared schema
(raising pydantic.ValidationError on violation), then execute with the
validated arguments.  Raised exceptions are the `.error` branch. -/
def BaseTool.validate_and_execute (t : BaseTool) (args : List (String × String)) :
    Except String String :=
  match t.validate args with
  | .error e => .error e
  | .ok validated => t.run validated

/-- shared/registry.py `ToolRegistry`: insertion-ordered mapping from
unique tool name to tool.  The source keeps `_tools` (classes) and
`_instances` (cached instances) keyed identically; one list of
instantiated tools models both. -/
structure ToolRegistry where
  tools : List BaseTool

/-- shared/registry.py `ToolRegistry.register` (lines 25 to 48):
raises ValueError when the name is already registered, otherwise
appends the tool. -/
def ToolRegistry.register (r : ToolRegistry) (t : BaseTool) :
    Except String ToolRegistry :=
  if r.tools.any (fun t0 => t0.name = t.name) then
    .error ("Tool " ++ t.name ++ " is already registered.")
  else
    .ok ⟨r.tools ++ [t]⟩

/-- shared/registry.py `ToolRegistry.get_tool` (lines 50 to 60):
dictionary lookup returning `None` when absent. -/
def ToolRegistry.get_tool (r : ToolRegistry) (name : String) : Option BaseTool :=
  r.tools.find? (fun t => t.name = name)

/-- shared/registry.py `ToolRegistry.get_tool_names` (lines 71 to 78):
the registered names in insertion order. -/
def ToolRegistry.get_tool_names (r : ToolRegistry) : List String :=
  r.tools.map (fun t => t.name)

/-- shared/registry.py `ToolRegistry.clear` (lines 167 to 174). -/
def ToolRegistry.clear (_ : ToolRegistry) : ToolRegistry := ⟨[]⟩

/-- shared/registry.py `ToolRegistry.execute_tool` (lines 80 to 124).
The whole body is wrapped in try/except: an unknown name returns a
failed result with error "Unknown tool: name" (lines 94 to 102); a
value returned by `validate_and_execute` yields a success result; any
exception raised there (pydantic.ValidationError from the schema check
or any exception from the tool body) is caught at line 116 and
converted into a failed result with `error = str(e)`.  The model field
`error_type` is never assigned by this function, so it is `none` in
every branch.  The function is total: it never raises. -/
def ToolRegistry.execute_tool (r : ToolRegistry) (tc : ToolCall) : ToolExecutionResult :=
  match r.get_tool tc.tool_name with
  | none =>
      { tool_name := tc.tool_name
        success := false
        result := none
        error := some ("Unknown tool: " ++ tc.tool_name)
        error_type := none
        execution_time := 0
        parameters := tc.arguments }
  | some tool =>
      match tool.validate_and_execute tc.arguments with
      | .ok v =>
          { tool_name := tc.tool_name
            success := true
            result := some v
            error := none
            error_type := none
            execution_time := 0
            parameters := tc.arguments }
      | .error e =>
          { tool_name := tc.tool_name
            success := false
            result := none
            error := some e
            error_type := none
            execution_time := 0
            parameters := tc.arguments }

/-- Registering a list of tool classes in order, propagating the
ValueError of the first duplicate (the loop body of
tool_set_registry.py lines 39 to 40). -/
def registerAll (r : ToolRegistry) : List BaseTool → Except String ToolRegistry
  | [] => .ok r
  | c :: cs =>
      match r.register c with
      | .error e => .error e
      | .ok r2 => registerAll r2 cs

/-- Python dict update `d[k] = v` on an association list. -/
def assocUpdate (k v : String) : List (String × String) → List (String × String)
  | [] => [(k, v)]
  | (k0, v0) :: rest =>
      if k0 = k then (k0, v) :: rest else (k0, v0) :: assocUpdate k v rest

/-- shared/tool_set_registry.py `ToolSetRegistry`: a wrapped
ToolRegistry plus the map of loaded tool set names to descriptions. -/
structure ToolSetRegistry where
  tool_registry : ToolRegistry
  loaded_tool_sets : List (String × String)

/-- shared/tool_set_registry.py `ToolSetRegistry.register_tool_set`
(lines 26 to 43): clear the existing tools first, register every class
of the set (ToolRegistry.register raises on a duplicate name inside
the set, which propagates), then record the tool set.  The model
returns the registry state after a successful call; a raising call
aborts with the exception. -/
def ToolSetRegistry.register_tool_set (r : ToolSetRegistry)
    (tool_set_name _description : String) (tool_classes : List BaseTool) :
    Except String ToolSetRegistry :=
  match registerAll (r.tool_registry.clear) tool_classes with
  | .error e => .error e
  | .ok tr =>
      .ok { tool_registry := tr
            loaded_tool_sets := assocUpdate tool_set_name _description r.loaded_tool_sets }

/-- shared/tool_set_registry.py `ToolSetRegistry.get_tool_names`. -/
def ToolSetRegistry.get_tool_names (r : ToolSetRegistry) : List String :=
  r.tool_registry.get_tool_names

/-- shared/tool_set_registry.py `ToolSetRegistry.execute_tool`
(lines 49 to 51): delegates to the wrapped ToolRegistry. -/
def ToolSetRegistry.execute_tool (r : ToolSetRegistry) (tc : ToolCall) :
    ToolExecutionResult :=
  r.tool_registry.execute_tool tc

/-- activity_manager.py `ActivityManager._execute_tools_sequential`
(lines 178 to 208): execute each call in order through the registry.
The try/except around each call (lines 191 to 206) is unreachable
because `execute_tool` is total and never raises, so the loop is the
map of `execute_tool` over the calls. -/
def executeToolsSequential (r : ToolSetRegistry) (tool_calls : List ToolCall) :
    List ToolExecutionResult :=
  tool_calls.map (fun tc => r.execute_tool tc)

/-- Step 1 of agent_reasoner.py
`AgentReasoner._validate_reasoning_output` (lines 153 to 158): at or
beyond the iteration limit, force `should_continue = False` and
synthesize a final response when the existing one is falsy.  The full
method is the composition `validateReasoningOutput` below, written as
the sequence of in-place updates the source performs. -/
def validateStep1 (iteration_count max_iterations : Nat) (ro : ReasoningOutput) :
    ReasoningOutput :=
  if max_iterations ≤ iteration_count then
    if optStrFalsy ro.final_response then
      { ro with
        should_continue := false
        continuation_reasoning :=
          "Maximum iterations (" ++ toString max_iterations ++ ") reached"
        final_response := some "I have reached the maximum number of iterations. Based on the work completed so far, here is what I found." }
    else
      { ro with
        should_continue := false
        continuation_reasoning :=
          "Maximum iterations (" ++ toString max_iterations ++ ") reached" }
  else ro

/-- Step 2 of `_validate_reasoning_output` (agent_reasoner.py
lines 160 to 176): when tools are requested and the list is truthy,
keep only calls whose name is registered; when none survive, force
`should_use_tools = False`. -/
def validateStep2 (tool_names : List String) (ro : ReasoningOutput) :
    ReasoningOutput :=
  if ro.should_use_tools && optListTruthy ro.tool_calls then
    if ((ro.tool_calls.getD []).filter
        (fun tc => decide (tc.tool_name ∈ tool_names))).isEmpty then
      { ro with
        tool_calls := some ((ro.tool_calls.getD []).filter
          (fun tc => decide (tc.tool_name ∈ tool_names)))
        should_use_tools := false
        continuation_reasoning := "No valid tools available for selected actions" }
    else
      { ro with
        tool_calls := some ((ro.tool_calls.getD []).filter
          (fun tc => decide (tc.tool_name ∈ tool_names))) }
  else ro

/-- Step 3 of `_validate_reasoning_output` (agent_reasoner.py
lines 178 to 181): tools requested with a falsy list forces
`should_use_tools = False`. -/
def validateStep3 (ro : ReasoningOutput) : ReasoningOutput :=
  if ro.should_use_tools && !optListTruthy ro.tool_calls then
    { ro with
      should_use_tools := false
      continuation_reasoning := "No specific tools identified for execution" }
  else ro

/-- Step 4 of `_validate_reasoning_output` (agent_reasoner.py
lines 183 to 185): not continuing with a falsy final response gets a
synthesized fallback message. -/
def validateStep4 (ro : ReasoningOutput) : ReasoningOutput :=
  if !ro.should_continue && optStrFalsy ro.final_response then
    { ro with final_response := some "I have completed the analysis based on the available information." }
  else ro

/-- agent_reasoner.py `AgentReasoner._validate_reasoning_output`
(lines 148 to 187): the four repair steps applied in source order to
the raw oracle output. -/
def validateReasoningOutput (tool_names : List String)
    (iteration_count max_iterations : Nat) (ro0 : ReasoningOutput) :
    ReasoningOutput :=
  validateStep4 (validateStep3 (validateStep2 tool_names
    (validateStep1 iteration_count max_iterations ro0)))

/-- The text of the AttributeError raised by the attribute access
`ActionType.CONTINUE` at manual_agent_loop.py line 210: the enum
defined at shared/models.py lines 57 to 62 has no member CONTINUE.
The exact wording is CPython-version dependent; no theorem below
depends on this string beyond it being the raised error text. -/
def continueAttributeError : String :=
  "type object ActionType has no attribute CONTINUE"

/-- manual_agent_loop.py `ManualAgentLoop._create_action_decision`
(lines 192 to 222).  The branch for neither tools nor stopping
evaluates `ActionType.CONTINUE`, an attribute that does not exist on
the enum, so that branch raises AttributeError instead of returning a
decision; the raise is the `.error` branch here. -/
def createActionDecision (loop_max : Nat) (ro : ReasoningOutput)
    (cs : ConversationState) : Except String ActionDecision :=
  if ro.should_use_tools && optListTruthy ro.tool_calls then
    .ok { action_type := .TOOL_EXECUTION
          reasoning := ro.overall_reasoning
          tool_calls := ro.tool_calls.getD []
          should_continue := ro.should_continue
          continuation_reasoning := some ro.continuation_reasoning
          final_response := ro.final_response
          confidence_score := ro.confidence
          iteration_count := cs.iteration_count
          max_iterations := pyOrNat cs.max_iterations loop_max }
  else if !ro.should_continue then
    .ok { action_type := .FINAL_RESPONSE
          reasoning := ro.overall_reasoning
          tool_calls := ro.tool_calls.getD []
          should_continue := ro.should_continue
          continuation_reasoning := some ro.continuation_reasoning
          final_response := ro.final_response
          confidence_score := ro.confidence
          iteration_count := cs.iteration_count
          max_iterations := pyOrNat cs.max_iterations loop_max }
  else
    .error continueAttributeError

/-- manual_agent_loop.py `ManualAgentLoop._create_error_decision`
(lines 224 to 246). -/
def createErrorDecision (loop_max : Nat) (error_message : String)
    (cs : ConversationState) : ActionDecision :=
  { action_type := .ERROR_RECOVERY
    reasoning := "Error occurred during reasoning: " ++ error_message
    tool_calls := []
    should_continue := false
    continuation_reasoning := some "Stopping due to error"
    final_response := some ("I encountered an error: " ++ error_message)
    confidence_score := 0
    iteration_count := cs.iteration_count
    max_iterations := pyOrNat cs.max_iterations loop_max }

/-- manual_agent_loop.py `ManualAgentLoop.get_next_action`
(lines 56 to 97).  `oracle_call` is the outcome of the external
reasoning call `self.agent_reasoner(...)` for the current state: the
raw ReasoningOutput on success, or the text of the raised exception.
On success the output is normalized by `_validate_reasoning_output`
(invoked inside AgentReasoner.forward, line 116) and converted by
`_create_action_decision`; every exception inside the try block
(including the raising oracle call and the AttributeError of the
missing CONTINUE member) is caught at line 95 and converted by
`_create_error_decision`.  The history and tool-result formatting
steps are total string operations that only shape the oracle input and
are absorbed into the `oracle_call` parameter. -/
def getNextAction (tool_names : List String) (loop_max : Nat)
    (oracle_call : Except String ReasoningOutput)
    (cs : ConversationState) : ActionDecision :=
  match oracle_call with
  | .error e => createErrorDecision loop_max e cs
  | .ok raw =>
      let ro := validateReasoningOutput tool_names cs.iteration_count
        (pyOrNat cs.max_iterations loop_max) raw
      match createActionDecision loop_max ro cs with
      | .ok d => d
      | .error e => createErrorDecision loop_max e cs

/-- Python set-insert modelled on a duplicate-free list, keeping first
insertion order (`tools_used.add(...)`, activity_manager.py line 129). -/
def setInsert (s : List String) (x : String) : List String :=
  if x ∈ s then s else s ++ [x]

/-- `f"Tool {name}: {error}"` where error is Optional
(activity_manager.py line 131): Python formats None as "None". -/
def optStrRepr : Option String → String
  | none => "None"
  | some s => s

/-- activity_manager.py `ActivityManager._create_success_result`
(lines 210 to 230). -/
def createSuccessResult (activity_id : String) (cs : ConversationState)
    (final_decision : ActionDecision) (total_tool_calls : Nat)
    (tools_used errors_encountered : List String) : ActivityResult :=
  { activity_id := activity_id
    status := "completed"
    final_response := pyOrStr final_decision.final_response "Activity completed successfully."
    total_iterations := cs.iteration_count
    total_tool_calls := total_tool_calls
    execution_time := 0
    tool_set_name := pyOrStr cs.tool_set_name "unknown"
    tools_used := tools_used
    errors_encountered := errors_encountered
    conversation_state := cs }

/-- activity_manager.py `ActivityManager._create_error_result`
(lines 232 to 252). -/
def createErrorResult (activity_id : String) (cs : ConversationState)
    (error_message : String) (total_tool_calls : Nat)
    (tools_used errors_encountered : List String) : ActivityResult :=
  { activity_id := activity_id
    status := "error_recovery"
    final_response := "Activity failed: " ++ error_message
    total_iterations := cs.iteration_count
    total_tool_calls := total_tool_calls
    execution_time := 0
    tool_set_name := pyOrStr cs.tool_set_name "unknown"
    tools_used := tools_used
    errors_encountered := errors_encountered
    conversation_state := cs }

/-- activity_manager.py `ActivityManager._create_timeout_result`
(lines 254 to 273). -/
def createTimeoutResult (timeout_seconds : Nat) (activity_id : String)
    (cs : ConversationState) (total_tool_calls : Nat)
    (tools_used errors_encountered : List String) : ActivityResult :=
  { activity_id := activity_id
    status := "terminated"
    final_response := "Activity timed out after " ++ toString timeout_seconds ++ " seconds."
    total_iterations := cs.iteration_count
    total_tool_calls := total_tool_calls
    execution_time := 0
    tool_set_name := pyOrStr cs.tool_set_name "unknown"
    tools_used := tools_used
    errors_encountered := errors_encountered
    conversation_state := cs }

/-- activity_manager.py `ActivityManager._create_max_iterations_result`
(lines 275 to 294). -/
def createMaxIterationsResult (max_iterations : Nat) (activity_id : String)
    (cs : ConversationState) (total_tool_calls : Nat)
    (tools_used errors_encountered : List String) : ActivityResult :=
  { activity_id := activity_id
    status := "max_iterations"
    final_response := "Activity reached maximum iterations (" ++ toString max_iterations ++ ")."
    total_iterations := cs.iteration_count
    total_tool_calls := total_tool_calls
    execution_time := 0
    tool_set_name := pyOrStr cs.tool_set_name "unknown"
    tools_used := tools_used
    errors_encountered := errors_encountered
    conversation_state := cs }

/-- The configuration and environment of one `ActivityManager` run:
its iteration and timeout knobs, the tool names held by the wrapped
ManualAgentLoop and its default max (loop_max), the tool registry, the
behaviour of the external oracle as a function of the conversation
state passed to the agent loop, and the wall-clock elapsed time
sampled at the timeout check before iteration n (a stand-in for
`time.time() - start_time`, activity_manager.py line 92). -/
structure ActivityEnv where
  max_iterations : Nat
  timeout_seconds : Nat
  tool_names : List String
  loop_max : Nat
  registry : ToolSetRegistry
  oracle : ConversationState → Except String ReasoningOutput
  elapsed : Nat → Nat

/-- The main iteration loop of activity_manager.py `run_activity`
(lines 88 to 166), one recursive call per `while` pass.  Each pass:
check the `while` guard `iteration_count < max_iterations` (line 90,
the `else` arm is the fall-through to `_create_max_iterations_result`,
line 163); check the timeout (line 92); increment the iteration count
(line 99); obtain the decision (line 102); dispatch on the action type
exactly as lines 105 to 160, where GOAL_CHECK and the default branch
both `continue`.  Python mutation of the local metrics and of the
conversation state is threaded explicitly.  `fuel` bounds the
structural recursion; every pass increments `iteration_count` by one,
so `run_activity` below supplies `fuel = max_iterations`, which by the
guard is never exhausted (the fuel-zero arm repeats the guard logic
and returns the same max-iterations fall-through). -/
def runLoop (env : ActivityEnv) (activity_id user_query : String) :
    Nat → ConversationState → Nat → List String → List String → ActivityResult
  | 0, cs, total_tool_calls, tools_used, errors =>
      createMaxIterationsResult env.max_iterations activity_id cs
        total_tool_calls tools_used errors
  | fuel + 1, cs, total_tool_calls, tools_used, errors =>
      if cs.iteration_count < env.max_iterations then
        if env.timeout_seconds < env.elapsed cs.iteration_count then
          createTimeoutResult env.timeout_seconds activity_id cs
            total_tool_calls tools_used errors
        else
          let cs1 := { cs with iteration_count := cs.iteration_count + 1 }
          let d := getNextAction env.tool_names env.loop_max (env.oracle cs1) cs1
          match d.action_type with
          | .FINAL_RESPONSE =>
              createSuccessResult activity_id cs1 d total_tool_calls tools_used errors
          | .ERROR_RECOVERY =>
              createErrorResult activity_id cs1 d.reasoning total_tool_calls
                tools_used (errors ++ [d.reasoning])
          | .TOOL_EXECUTION =>
              let tool_results := executeToolsSequential env.registry d.tool_calls
              let total2 := total_tool_calls + tool_results.length
              let used2 := tool_results.foldl (fun s r => setInsert s r.tool_name) tools_used
              let errors2 := errors ++ (tool_results.filter (fun r => !r.success)).map
                (fun r => "Tool " ++ r.tool_name ++ ": " ++ optStrRepr r.error)
              let entry : ConversationEntry :=
                { iteration := cs1.iteration_count
                  user_input := if cs1.iteration_count = 1 then user_query else "Continue"
                  response := d.reasoning
                  tool_calls_made := d.tool_calls
                  tool_results := tool_results
                  timestamp := 0 }
              let cs2 := { cs1 with
                last_tool_results := some tool_results
                conversation_history := cs1.conversation_history ++ [entry] }
              if !d.should_continue then
                createSuccessResult activity_id cs2 d total2 used2 errors2
              else
                runLoop env activity_id user_query fuel cs2 total2 used2 errors2
          | .GOAL_CHECK =>
              runLoop env activity_id user_query fuel cs1 total_tool_calls tools_used errors
      else
        createMaxIterationsResult env.max_iterations activity_id cs
          total_tool_calls tools_used errors

/-- activity_manager.py `ActivityManager.run_activity` (lines 51 to
176): build the initial conversation state (lines 71 to 81) with
`iteration_count = 0` and `max_iterations = self.max_iterations`, set
up empty metrics (lines 84 to 86), and run the iteration loop.  The
outer try/except (line 168) is unreachable in the embedding because
every embedded step is total.  Timestamps are abstracted to 0 and the
generated uuid to the given `activity_id`. -/
def run_activity (env : ActivityEnv) (user_query : String)
    (goal : Option String) (activity_id : String) : ActivityResult :=
  let cs0 : ConversationState :=
    { user_query := user_query
      goal := goal
      iteration_count := 0
      conversation_history := []
      last_tool_results := none
      activity_id := some activity_id
      max_iterations := some env.max_iterations
      start_time := some 0
      tool_set_name := none }
  runLoop env activity_id user_query env.max_iterations cs0 0 [] []

/-- Ghost companion of `runLoop`: the list of ActionDecisions the loop
obtains, one per executed iteration, threading the conversation state
exactly as `runLoop` does.  Used only to state trace-level claims. -/
def runTrace (env : ActivityEnv) (user_query : String) :
    Nat → ConversationState → List ActionDecision
  | 0, _ => []
  | fuel + 1, cs =>
      if cs.iteration_count < env.max_iterations then
        if env.timeout_seconds < env.elapsed cs.iteration_count then []
        else
          let cs1 := { cs with iteration_count := cs.iteration_count + 1 }
          let d := getNextAction env.tool_names env.loop_max (env.oracle cs1) cs1
          match d.action_type with
          | .FINAL_RESPONSE => [d]
          | .ERROR_RECOVERY => [d]
          | .TOOL_EXECUTION =>
              let tool_results := executeToolsSequential env.registry d.tool_calls
              let entry : ConversationEntry :=
                { iteration := cs1.iteration_count
                  user_input := if cs1.iteration_count = 1 then user_query else "Continue"
                  response := d.reasoning
                  tool_calls_made := d.tool_calls
                  tool_results := tool_results
                  timestamp := 0 }
              let cs2 := { cs1 with
                last_tool_results := some tool_results
                conversation_history := cs1.conversation_history ++ [entry] }
              if !d.should_continue then [d]
              else d :: runTrace env user_query fuel cs2
          | .GOAL_CHECK => d :: runTrace env user_query fuel cs1
      else []

/-- The ConversationEntry appended by the TOOL_EXECUTION branch of the
loop at iteration `iter` for decision `d` (activity_manager.py
lines 137 to 144). -/
def entryForDecision (env : ActivityEnv) (user_query : String) (iter : Nat)
    (d : ActionDecision) : ConversationEntry :=
  { iteration := iter
    user_input := if iter = 1 then user_query else "Continue"
    response := d.reasoning
    tool_calls_made := d.tool_calls
    tool_results := executeToolsSequential env.registry d.tool_calls
    timestamp := 0 }

/-- The conversation entries a decision trace contributes when the
iteration count before the first traced iteration is `c`: one entry
per TOOL_EXECUTION decision, at its iteration number. -/
def entriesOfTrace (env : ActivityEnv) (user_query : String) :
    Nat → List ActionDecision → List ConversationEntry
  | _, [] => []
  | c, d :: ds =>
      (if d.action_type = .TOOL_EXECUTION
        then [entryForDecision env user_query (c + 1) d] else [])
      ++ entriesOfTrace env user_query (c + 1) ds

/-- response_formatter.py
`ResponseFormatter._format_conversation_entries` (lines 195 to 212):
render entries as text for LLM consumption.  Total string assembly;
the history compressor consumes its output. -/
def formatConversationEntries (entries : List ConversationEntry) : String :=
  if entries.isEmpty then "No conversation history available"
  else
    String.intercalate "\n" (entries.map (fun e =>
      let tools_used := e.tool_calls_made.map (fun c => c.tool_name)
      let tools_str :=
        if tools_used.isEmpty then "No tools used"
        else "Tools used: " ++ String.intercalate ", " tools_used
      "Iteration " ++ toString e.iteration ++ ":\nUser: " ++ e.user_input
        ++ "\nAgent: " ++ e.response ++ "\n" ++ tools_str ++ "\n"))

/-- The synthetic summary entry created by
`ConversationManager._compress_history`
(response_formatter.py lines 343 to 349). -/
def summaryEntry (compressed_history preserved_context : String) : ConversationEntry :=
  { iteration := 0
    user_input := "[COMPRESSED HISTORY]"
    response := "Summary: " ++ compressed_history ++ "\nContext: " ++ preserved_context
    tool_calls_made := []
    tool_results := []
    timestamp := 0 }

/-- response_formatter.py `ConversationManager` configuration
(lines 218 to 229). -/
structure ConversationManager where
  max_history_length : Nat
  auto_summarize_threshold : Nat

/-- response_formatter.py `ConversationManager._compress_history`
(lines 318 to 354).  `compressor` is the external LLM call
`self.history_compressor(long_history=...)` applied to the formatted
older entries: `some (compressed_history, preserved_context)` on
success, `none` when it raises (the except at line 352 falls back to
plain truncation). -/
def compressHistory (cm : ConversationManager)
    (compressor : String → Option (String × String))
    (entries : List ConversationEntry) : List ConversationEntry :=
  if entries.length ≤ cm.max_history_length then entries
  else
    let recent_entries := pySliceLast cm.max_history_length entries
    let older_entries := pySliceDropLast cm.max_history_length entries
    match compressor (formatConversationEntries older_entries) with
    | some (ch, pc) => summaryEntry ch pc :: recent_entries
    | none => recent_entries

/-- response_formatter.py `ConversationManager.add_conversation_entry`
(lines 239 to 261): append the new entry, then compress when the
length exceeds `auto_summarize_threshold`, else hard-truncate when it
exceeds `max_history_length`. -/
def addConversationEntry (cm : ConversationManager)
    (compressor : String → Option (String × String))
    (entries : List ConversationEntry) (new_entry : ConversationEntry) :
    List ConversationEntry :=
  let updated_entries := entries ++ [new_entry]
  if cm.auto_summarize_threshold < updated_entries.length then
    compressHistory cm compressor updated_entries
  else if cm.max_history_length < updated_entries.length then
    pySliceLast cm.max_history_length updated_entries
  else updated_entries

/-- Concrete oracle output for exercising claim C1: every iteration the
oracle asks to continue and requests no tool use. -/
def c1OracleOutput : ReasoningOutput :=
  { overall_reasoning := "still thinking"
    confidence := 1
    should_use_tools := false
    tool_calls := none
    parallel_safe := true
    should_continue := true
    continuation_reasoning := "more work remains"
    final_response := none
    suggested_next_action := none }

/-- Concrete activity environment for claim C1: `max_iterations = 3`,
a generous timeout never reached, and the always-continue no-tools
oracle. -/
def c1Env : ActivityEnv :=
  { max_iterations := 3
    timeout_seconds := 30
    tool_names := ["search"]
    loop_max := 3
    registry := ⟨⟨[]⟩, []⟩
    oracle := fun _ => .ok c1OracleOutput
    elapsed := fun _ => 0 }

/-- Concrete tool for claim C5 whose schema validation rejects an
argument map without a `message` key, the way a Pydantic `args_model`
with a required field does; the raised pydantic.ValidationError text
is what `str(e)` yields. -/
def c5ValidatedTool : BaseTool :=
  { name := "set_reminder"
    validate := fun args =>
      if args.any (fun p => p.1 = "message") then .ok args
      else .error "1 validation error for SetReminderArgs: message Field required"
    run := fun _ => .ok "reminder set" }

/-- Concrete tool for claim C5 whose body crashes with a generic
exception after validation passes. -/
def c5CrashingTool : BaseTool :=
  { name := "divide"
    validate := fun args => .ok args
    run := fun _ => .error "division by zero" }

/-- Registry holding the two claim C5 tools. -/
def c5Registry : ToolRegistry := ⟨[c5ValidatedTool, c5CrashingTool]⟩

/-- Concrete entry used by the claim C7 counterexample. -/
def c7Entry : ConversationEntry :=
  { iteration := 1
    user_input := "hello"
    response := "hi"
    tool_calls_made := []
    tool_results := []
    timestamp := 0 }

/-- An echo tool for the claim C10 witness environment. -/
def c10EchoTool : BaseTool :=
  { name := "echo"
    validate := fun args => .ok args
    run := fun _ => .ok "echoed" }

/-- Oracle output for the claim C10 witness: request one echo call and
stop afterwards. -/
def c10OracleOutput : ReasoningOutput :=
  { overall_reasoning := "use the echo tool"
    confidence := 1
    should_use_tools := true
    tool_calls := some [{ tool_name := "echo", arguments := [("text", "hi")] }]
    parallel_safe := true
    should_continue := false
    continuation_reasoning := "done after this"
    final_response := some "echoed for you"
    suggested_next_action := none }

/-- Concrete activity environment for the claim C10 witness: one
tool-executing iteration, then completion. -/
def c10Env : ActivityEnv :=
  { max_iterations := 5
    timeout_seconds := 30
    tool_names := ["echo"]
    loop_max := 5
    registry := ⟨⟨[c10EchoTool]⟩, [("demo", "demo tools")]⟩
    oracle := fun _ => .ok c10OracleOutput
    elapsed := fun _ => 0 }

/-- The decision trace of a whole activity run, starting from the same
initial conversation state `run_activity` builds. -/
def run_activity_trace (env : ActivityEnv) (user_query : String)
    (goal : Option String) (activity_id : String) : List ActionDecision :=
  runTrace env user_query env.max_iterations
    { user_query := user_query
      goal := goal
      iteration_count := 0
      conversation_history := []
      last_tool_results := none
      activity_id := some activity_id
      max_iterations := some env.max_iterations
      start_time := some 0
      tool_set_name := none }

theorem append_ne_empty_left (s t : String) (h : s ≠ "") : s ++ t ≠ "" := by
  intro he
  apply h
  have hl := congrArg String.length he
  rw [String.length_append] at hl
  have hz : ("" : String).length = 0 := rfl
  rw [hz] at hl
  have h0 : s.length = 0 := by omega
  have hlist : s.data.length = 0 := h0
  have hd : s.data = [] := List.length_eq_zero.mp hlist
  have : s = ⟨[]⟩ := by cases s; exact congrArg String.mk hd
  exact this

theorem pyOrStr_ne_empty (o : Option String) (d : String) (hd : d ≠ "") :
    pyOrStr o d ≠ "" := by
  cases o with
  | none => exact hd
  | some s =>
      by_cases hs : s = ""
      · simp [pyOrStr, hs, hd]
      · simp [pyOrStr, hs]

/-- Claim C3: `ToolRegistry.execute_tool` is total (the embedding
returns a plain `ToolExecutionResult`, never an exception value): when
the tool name is not registered the result is the failed record with
error "Unknown tool: name" and nothing is raised, and when the
underlying `validate_and_execute` raises with text `e` the result is a
failed record with `error = str(e)`. -/
theorem execute_tool_never_raises (r : ToolRegistry) (tc : ToolCall) :
    (r.get_tool tc.tool_name = none →
      r.execute_tool tc =
        { tool_name := tc.tool_name
          success := false
          result := none
          error := some ("Unknown tool: " ++ tc.tool_name)
          error_type := none
          execution_time := 0
          parameters := tc.arguments }) ∧
    (∀ t e, r.get_tool tc.tool_name = some t →
      t.validate_and_execute tc.arguments = .error e →
      (r.execute_tool tc).success = false ∧ (r.execute_tool tc).error = some e) := by
  constructor
  · intro h
    simp [ToolRegistry.execute_tool, h]
  · intro t e ht he
    simp [ToolRegistry.execute_tool, ht, he]

/-- Witness for C3 at concrete inputs: an empty registry yields the
"Unknown tool: search" failure result, and a registered crashing tool
yields a failure carrying the exception text. -/
theorem execute_tool_never_raises_witness :
    (ToolRegistry.mk []).execute_tool { tool_name := "search", arguments := [] } =
      { tool_name := "search"
        success := false
        result := none
        error := some ("Unknown tool: " ++ "search")
        error_type := none
        execution_time := 0
        parameters := [] } ∧
    ((ToolRegistry.mk [{ name := "boom"
                         validate := fun a => .ok a
                         run := fun _ => .error "kaboom" }]).execute_tool
        { tool_name := "boom", arguments := [] }).success = false ∧
    ((ToolRegistry.mk [{ name := "boom"
                         validate := fun a => .ok a
                         run := fun _ => .error "kaboom" }]).execute_tool
        { tool_name := "boom", arguments := [] }).error = some "kaboom" := by
  refine ⟨?_, ?_⟩
  · exact (execute_tool_never_raises (ToolRegistry.mk [])
      { tool_name := "search", arguments := [] }).1 rfl
  · exact (execute_tool_never_raises
      (ToolRegistry.mk [{ name := "boom"
                          validate := fun a => .ok a
                          run := fun _ => .error "kaboom" }])
      { tool_name := "boom", arguments := [] }).2
      _ "kaboom" rfl rfl

/-- Claim C4: a batch executed by `_execute_tools_sequential` always
returns one result per call in call order; a call whose underlying
tool raises produces a failed result with a non-null error at its own
position; and the result at any position depends only on the call at
that position, so the other positions are unaffected by a raising
call. -/
theorem batch_failure_isolation (reg : ToolSetRegistry) (calls : List ToolCall) :
    (executeToolsSequential reg calls).length = calls.length ∧
    (∀ (i : Nat) (c : ToolCall), calls[i]? = some c →
      ∀ t e, reg.tool_registry.get_tool c.tool_name = some t →
        t.validate_and_execute c.arguments = .error e →
        ∃ rr : ToolExecutionResult, (executeToolsSequential reg calls)[i]? = some rr ∧
          rr.success = false ∧ rr.error ≠ none) ∧
    (∀ (calls2 : List ToolCall) (i : Nat),
      (∀ j, j ≠ i → calls2[j]? = calls[j]?) →
      ∀ j, j ≠ i →
        (executeToolsSequential reg calls2)[j]? = (executeToolsSequential reg calls)[j]?) := by
  refine ⟨by simp [executeToolsSequential], ?_, ?_⟩
  · intro i c hc t e ht he
    refine ⟨reg.execute_tool c, ?_, ?_, ?_⟩
    · simp [executeToolsSequential, List.getElem?_map, hc]
    · simp [ToolSetRegistry.execute_tool, ToolRegistry.execute_tool, ht, he]
    · simp [ToolSetRegistry.execute_tool, ToolRegistry.execute_tool, ht, he]
  · intro calls2 i hagree j hji
    simp [executeToolsSequential, List.getElem?_map, hagree j hji]

/-- Witness for C4: in the concrete batch [good, bad, good] where the
middle tool raises, position 1 is a failed result with a non-null
error, obtained through the batch isolation theorem. -/
theorem batch_failure_isolation_witness :
    ∃ rr : ToolExecutionResult,
      (executeToolsSequential
        ⟨⟨[{ name := "good", validate := fun a => .ok a, run := fun _ => .ok "fine" },
           { name := "bad", validate := fun a => .ok a, run := fun _ => .error "boom" }]⟩, []⟩
        [{ tool_name := "good", arguments := [] },
         { tool_name := "bad", arguments := [] },
         { tool_name := "good", arguments := [] }])[1]? = some rr ∧
      rr.success = false ∧ rr.error ≠ none := by
  exact (batch_failure_isolation
    ⟨⟨[{ name := "good", validate := fun a => .ok a, run := fun _ => .ok "fine" },
       { name := "bad", validate := fun a => .ok a, run := fun _ => .error "boom" }]⟩, []⟩
    [{ tool_name := "good", arguments := [] },
     { tool_name := "bad", arguments := [] },
     { tool_name := "good", arguments := [] }]).2.1
    1 { tool_name := "bad", arguments := [] } rfl _ "boom" rfl rfl

/-- Counterexample for C5: a call whose arguments violate the declared
schema of `set_reminder` comes back from `execute_tool` with
`error_type = none`, not a structured ValidationError kind, and that
field is identical to the one of a generic tool crash, so the caller
cannot distinguish the kinds.  The failure is only the undifferentiated
`str(exception)` text in `error`. -/
theorem validation_error_not_structured_cex :
    (c5Registry.execute_tool { tool_name := "set_reminder", arguments := [("when", "5pm")] }).success = false ∧
    (c5Registry.execute_tool { tool_name := "set_reminder", arguments := [("when", "5pm")] }).error
      = some "1 validation error for SetReminderArgs: message Field required" ∧
    (c5Registry.execute_tool { tool_name := "set_reminder", arguments := [("when", "5pm")] }).error_type = none ∧
    ¬ (c5Registry.execute_tool { tool_name := "set_reminder", arguments := [("when", "5pm")] }).error_type
        = some "ValidationError" ∧
    (c5Registry.execute_tool { tool_name := "set_reminder", arguments := [("when", "5pm")] }).error_type
      = (c5Registry.execute_tool { tool_name := "divide", arguments := [("a", "1")] }).error_type := by
  decide

/-- Claim C5 as amended: a schema-validation failure is reported by
`execute_tool` as a failed result whose `error` is the plain
`str(exception)` text of the pydantic ValidationError and whose
`error_type` field stays `none`, structurally identical to a generic
tool crash. -/
theorem validation_error_reported_as_plain_string (r : ToolRegistry) (tc : ToolCall)
    (t : BaseTool) (e : String)
    (ht : r.get_tool tc.tool_name = some t)
    (he : t.validate tc.arguments = .error e) :
    r.execute_tool tc =
      { tool_name := tc.tool_name
        success := false
        result := none
        error := some e
        error_type := none
        execution_time := 0
        parameters := tc.arguments } := by
  simp [ToolRegistry.execute_tool, ht, BaseTool.validate_and_execute, he]

/-- Witness for the amended C5 at concrete inputs. -/
theorem validation_error_reported_as_plain_string_witness :
    c5Registry.execute_tool { tool_name := "set_reminder", arguments := [("when", "5pm")] } =
      { tool_name := "set_reminder"
        success := false
        result := none
        error := some "1 validation error for SetReminderArgs: message Field required"
        error_type := none
        execution_time := 0
        parameters := [("when", "5pm")] } := by
  exact validation_error_reported_as_plain_string c5Registry
    { tool_name := "set_reminder", arguments := [("when", "5pm")] }
    c5ValidatedTool "1 validation error for SetReminderArgs: message Field required"
    rfl rfl

theorem validateStep1_sut_tc (ic mi : Nat) (ro : ReasoningOutput) :
    (validateStep1 ic mi ro).should_use_tools = ro.should_use_tools ∧
    (validateStep1 ic mi ro).tool_calls = ro.tool_calls := by
  unfold validateStep1
  split_ifs <;> exact ⟨rfl, rfl⟩

theorem validateStep3_of_sut (ro : ReasoningOutput)
    (h : (validateStep3 ro).should_use_tools = true) :
    validateStep3 ro = ro ∧ ro.should_use_tools = true ∧
    optListTruthy ro.tool_calls = true := by
  unfold validateStep3 at h ⊢
  by_cases hc : (ro.should_use_tools && !optListTruthy ro.tool_calls) = true
  · rw [if_pos hc] at h
    simp at h
  · rw [if_neg hc] at h
    rw [if_neg hc]
    refine ⟨rfl, h, ?_⟩
    by_contra htc
    apply hc
    simp [h]
    simpa using htc

theorem validateStep4_sut_tc (ro : ReasoningOutput) :
    (validateStep4 ro).should_use_tools = ro.should_use_tools ∧
    (validateStep4 ro).tool_calls = ro.tool_calls := by
  unfold validateStep4
  split_ifs <;> exact ⟨rfl, rfl⟩

theorem validateStep2_of_sut_truthy (tool_names : List String) (ro : ReasoningOutput)
    (h1 : (validateStep2 tool_names ro).should_use_tools = true)
    (h2 : optListTruthy (validateStep2 tool_names ro).tool_calls = true) :
    (validateStep2 tool_names ro).tool_calls
      = some ((ro.tool_calls.getD []).filter (fun tc => decide (tc.tool_name ∈ tool_names)))
    ∧ ((ro.tool_calls.getD []).filter (fun tc => decide (tc.tool_name ∈ tool_names))) ≠ [] := by
  unfold validateStep2 at h1 h2 ⊢
  by_cases hc : (ro.should_use_tools && optListTruthy ro.tool_calls) = true
  · rw [if_pos hc] at h1 h2 ⊢
    by_cases hemp : ((ro.tool_calls.getD []).filter
        (fun tc => decide (tc.tool_name ∈ tool_names))).isEmpty = true
    · rw [if_pos hemp] at h1
      simp at h1
    · rw [if_neg hemp] at h2 ⊢
      refine ⟨rfl, ?_⟩
      simpa using hemp
  · rw [if_neg hc] at h1 h2
    exact absurd (by simp [h1, h2]) hc

theorem validate_of_sut (tool_names : List String) (ic mi : Nat) (ro : ReasoningOutput)
    (h : (validateReasoningOutput tool_names ic mi ro).should_use_tools = true) :
    (validateReasoningOutput tool_names ic mi ro).tool_calls
      = some ((ro.tool_calls.getD []).filter (fun tc => decide (tc.tool_name ∈ tool_names)))
    ∧ ((ro.tool_calls.getD []).filter (fun tc => decide (tc.tool_name ∈ tool_names))) ≠ [] := by
  unfold validateReasoningOutput at h ⊢
  have hp1 := validateStep1_sut_tc ic mi ro
  have hp4 := validateStep4_sut_tc
    (validateStep3 (validateStep2 tool_names (validateStep1 ic mi ro)))
  rw [hp4.1] at h
  obtain ⟨heq3, hsut3, htc3⟩ := validateStep3_of_sut _ h
  rw [hp4.2, heq3]
  have h2 := validateStep2_of_sut_truthy tool_names (validateStep1 ic mi ro) hsut3 htc3
  rw [hp1.2] at h2
  exact h2

theorem getNextAction_ok_eq (tool_names : List String) (loop_max : Nat)
    (ro : ReasoningOutput) (cs : ConversationState) :
    getNextAction tool_names loop_max (.ok ro) cs =
      match createActionDecision loop_max (validateReasoningOutput tool_names
          cs.iteration_count (pyOrNat cs.max_iterations loop_max) ro) cs with
      | .ok d => d
      | .error e => createErrorDecision loop_max e cs := rfl

theorem createActionDecision_tool (loop_max : Nat) (v : ReasoningOutput)
    (cs : ConversationState)
    (h : (v.should_use_tools && optListTruthy v.tool_calls) = true) :
    createActionDecision loop_max v cs = .ok
      { action_type := .TOOL_EXECUTION
        reasoning := v.overall_reasoning
        tool_calls := v.tool_calls.getD []
        should_continue := v.should_continue
        continuation_reasoning := some v.continuation_reasoning
        final_response := v.final_response
        confidence_score := v.confidence
        iteration_count := cs.iteration_count
        max_iterations := pyOrNat cs.max_iterations loop_max } := by
  unfold createActionDecision
  rw [if_pos h]

theorem createActionDecision_final (loop_max : Nat) (v : ReasoningOutput)
    (cs : ConversationState)
    (h1 : ¬ (v.should_use_tools && optListTruthy v.tool_calls) = true)
    (h2 : (!v.should_continue) = true) :
    createActionDecision loop_max v cs = .ok
      { action_type := .FINAL_RESPONSE
        reasoning := v.overall_reasoning
        tool_calls := v.tool_calls.getD []
        should_continue := v.should_continue
        continuation_reasoning := some v.continuation_reasoning
        final_response := v.final_response
        confidence_score := v.confidence
        iteration_count := cs.iteration_count
        max_iterations := pyOrNat cs.max_iterations loop_max } := by
  unfold createActionDecision
  rw [if_neg h1, if_pos h2]

theorem createActionDecision_raises (loop_max : Nat) (v : ReasoningOutput)
    (cs : ConversationState)
    (h1 : ¬ (v.should_use_tools && optListTruthy v.tool_calls) = true)
    (h2 : ¬ (!v.should_continue) = true) :
    createActionDecision loop_max v cs = .error continueAttributeError := by
  unfold createActionDecision
  rw [if_neg h1, if_neg h2]

/-- Claim C2: on the non-error path of `get_next_action`, a decision
with action type TOOL_EXECUTION always carries a non-empty list of
tool calls whose names are all registered (unknown names having been
dropped by the validation step), and when every proposed call has an
unknown name the resulting decision is never TOOL_EXECUTION. -/
theorem tool_execution_decision_valid (tool_names : List String) (loop_max : Nat)
    (ro : ReasoningOutput) (cs : ConversationState) :
    ((getNextAction tool_names loop_max (.ok ro) cs).action_type = .TOOL_EXECUTION →
      (getNextAction tool_names loop_max (.ok ro) cs).tool_calls ≠ [] ∧
      ∀ tc ∈ (getNextAction tool_names loop_max (.ok ro) cs).tool_calls,
        tc.tool_name ∈ tool_names) ∧
    ((∀ tc ∈ ro.tool_calls.getD [], tc.tool_name ∉ tool_names) →
      (getNextAction tool_names loop_max (.ok ro) cs).action_type ≠ .TOOL_EXECUTION) := by
  by_cases hcond : ((validateReasoningOutput tool_names cs.iteration_count
      (pyOrNat cs.max_iterations loop_max) ro).should_use_tools
        && optListTruthy (validateReasoningOutput tool_names cs.iteration_count
      (pyOrNat cs.max_iterations loop_max) ro).tool_calls) = true
  · have hsut := (Bool.and_eq_true _ _).mp hcond
    obtain ⟨htc, hne⟩ := validate_of_sut tool_names cs.iteration_count
      (pyOrNat cs.max_iterations loop_max) ro hsut.1
    rw [getNextAction_ok_eq, createActionDecision_tool _ _ _ hcond]
    constructor
    · intro _
      constructor
      · simp [htc, hne]
      · intro tc htcmem
        simp only [htc, Option.getD_some] at htcmem
        have := List.mem_filter.mp htcmem
        exact of_decide_eq_true this.2
    · intro hall _
      apply hne
      rw [List.eq_nil_iff_forall_not_mem]
      intro tc htcmem
      have := List.mem_filter.mp htcmem
      exact hall tc this.1 (of_decide_eq_true this.2)
  · by_cases hsc : (!(validateReasoningOutput tool_names cs.iteration_count
        (pyOrNat cs.max_iterations loop_max) ro).should_continue) = true
    · rw [getNextAction_ok_eq, createActionDecision_final _ _ _ hcond hsc]
      exact ⟨fun h => absurd h (by simp), fun _ => by simp⟩
    · rw [getNextAction_ok_eq, createActionDecision_raises _ _ _ hcond hsc]
      exact ⟨fun h => absurd h (by simp [createErrorDecision]),
        fun _ => by simp [createErrorDecision]⟩

/-- Witness for C2: a concrete oracle output proposing one registered
and one unknown tool; the decision is TOOL_EXECUTION, its calls are
non-empty, and every surviving name is registered. -/
theorem tool_execution_decision_valid_witness :
    (getNextAction ["search"] 5 (.ok
      { overall_reasoning := "use tools"
        confidence := 1
        should_use_tools := true
        tool_calls := some [{ tool_name := "search", arguments := [] },
                            { tool_name := "teleport", arguments := [] }]
        parallel_safe := true
        should_continue := true
        continuation_reasoning := "keep going"
        final_response := none
        suggested_next_action := none })
      { user_query := "find it"
        goal := none
        iteration_count := 1
        conversation_history := []
        last_tool_results := none
        activity_id := none
        max_iterations := some 5
        start_time := none
        tool_set_name := none }).tool_calls ≠ [] ∧
    ∀ tc ∈ (getNextAction ["search"] 5 (.ok
      { overall_reasoning := "use tools"
        confidence := 1
        should_use_tools := true
        tool_calls := some [{ tool_name := "search", arguments := [] },
                            { tool_name := "teleport", arguments := [] }]
        parallel_safe := true
        should_continue := true
        continuation_reasoning := "keep going"
        final_response := none
        suggested_next_action := none })
      { user_query := "find it"
        goal := none
        iteration_count := 1
        conversation_history := []
        last_tool_results := none
        activity_id := none
        max_iterations := some 5
        start_time := none
        tool_set_name := none }).tool_calls, tc.tool_name ∈ ["search"] := by
  exact (tool_execution_decision_valid ["search"] 5
    { overall_reasoning := "use tools"
      confidence := 1
      should_use_tools := true
      tool_calls := some [{ tool_name := "search", arguments := [] },
                          { tool_name := "teleport", arguments := [] }]
      parallel_safe := true
      should_continue := true
      continuation_reasoning := "keep going"
      final_response := none
      suggested_next_action := none }
    { user_query := "find it"
      goal := none
      iteration_count := 1
      conversation_history := []
      last_tool_results := none
      activity_id := none
      max_iterations := some 5
      start_time := none
      tool_set_name := none }).1 (by decide)

/-- Claim C8: when the decision oracle call inside `get_next_action`
raises, the returned decision has action type ERROR_RECOVERY, does not
continue, has confidence score 0.0, and its final response contains
the error text of the exception. -/
theorem oracle_failure_error_decision (tool_names : List String) (loop_max : Nat)
    (e : String) (cs : ConversationState) :
    (getNextAction tool_names loop_max (.error e) cs).action_type = .ERROR_RECOVERY ∧
    (getNextAction tool_names loop_max (.error e) cs).should_continue = false ∧
    (getNextAction tool_names loop_max (.error e) cs).confidence_score = 0 ∧
    (getNextAction tool_names loop_max (.error e) cs).final_response
      = some ("I encountered an error: " ++ e) ∧
    ∃ pre post : String,
      (getNextAction tool_names loop_max (.error e) cs).final_response
        = some (pre ++ e ++ post) := by
  refine ⟨rfl, rfl, rfl, rfl, "I encountered an error: ", "", ?_⟩
  show some ("I encountered an error: " ++ e)
      = some (("I encountered an error: " ++ e) ++ "")
  rw [String.append_empty]

theorem registerAll_ok_of_fresh : ∀ (classes acc : List BaseTool),
    (classes.map (fun t => t.name)).Nodup →
    (∀ c ∈ classes, ∀ t ∈ acc, ¬ t.name = c.name) →
    registerAll ⟨acc⟩ classes = .ok ⟨acc ++ classes⟩ := by
  intro classes
  induction classes with
  | nil =>
      intro acc _ _
      simp [registerAll]
  | cons c cs ih =>
      intro acc hnd hfresh
      have hany : ((⟨acc⟩ : ToolRegistry).tools.any (fun t0 => t0.name = c.name)) = false := by
        simp only [List.any_eq_false, decide_eq_true_eq]
        intro t0 ht0
        exact hfresh c (by simp) t0 ht0
      have hreg : (⟨acc⟩ : ToolRegistry).register c = .ok ⟨acc ++ [c]⟩ := by
        unfold ToolRegistry.register
        rw [hany]
        rfl
      have hfresh2 : ∀ d ∈ cs, ∀ t ∈ acc ++ [c], ¬ t.name = d.name := by
        intro d hd t ht heq
        rcases List.mem_append.mp ht with hta | htc2
        · exact hfresh d (List.mem_cons_of_mem c hd) t hta heq
        · have hteq : t = c := by simpa using htc2
          have hnodup := hnd
          simp only [List.map_cons, List.nodup_cons] at hnodup
          apply hnodup.1
          have hcd : c.name = d.name := hteq ▸ heq
          rw [hcd]
          exact List.mem_map_of_mem (fun x => x.name) hd
      have hnd2 : (cs.map (fun t => t.name)).Nodup := by
        simp only [List.map_cons, List.nodup_cons] at hnd
        exact hnd.2
      have step : registerAll ⟨acc⟩ (c :: cs) = registerAll ⟨acc ++ [c]⟩ cs := by
        show (match (⟨acc⟩ : ToolRegistry).register c with
              | .error e => .error e
              | .ok r2 => registerAll r2 cs) = registerAll ⟨acc ++ [c]⟩ cs
        rw [hreg]
      rw [step, ih (acc ++ [c]) hnd2 hfresh2]
      simp

/-- Claim C9: a call to `register_tool_set` whose classes carry
pairwise distinct NAMEs succeeds from ANY prior registry state, and
immediately afterwards the registered tool names are exactly the NAME
attributes of that set, in order: the method clears all previously
registered tools itself, so no separate clear() is needed and no tool
of a previously loaded set survives. -/
theorem register_tool_set_replaces (r : ToolSetRegistry)
    (tool_set_name description : String) (tool_classes : List BaseTool)
    (h : (tool_classes.map (fun t => t.name)).Nodup) :
    ∃ r2 : ToolSetRegistry,
      r.register_tool_set tool_set_name description tool_classes = .ok r2 ∧
      r2.get_tool_names = tool_classes.map (fun t => t.name) := by
  have hreg := registerAll_ok_of_fresh tool_classes [] h (by simp)
  refine ⟨{ tool_registry := ⟨tool_classes⟩
            loaded_tool_sets := assocUpdate tool_set_name description r.loaded_tool_sets },
    ?_, ?_⟩
  · unfold ToolSetRegistry.register_tool_set
    have hclear : r.tool_registry.clear = (⟨[]⟩ : ToolRegistry) := rfl
    rw [hclear, hreg]
    simp
  · simp [ToolSetRegistry.get_tool_names, ToolRegistry.get_tool_names]

/-- Witness for C9: a registry already holding the tool set old_tool
is handed a two-tool set; the call succeeds and exactly the two new
NAMEs are registered. -/
theorem register_tool_set_replaces_witness :
    ∃ r2 : ToolSetRegistry,
      (ToolSetRegistry.register_tool_set
        ⟨⟨[{ name := "old_tool", validate := fun a => .ok a, run := fun _ => .ok "x" }]⟩,
         [("treasure_hunt", "old set")]⟩
        "productivity" "new set"
        [{ name := "find_clue", validate := fun a => .ok a, run := fun _ => .ok "c" },
         { name := "decode_map", validate := fun a => .ok a, run := fun _ => .ok "m" }]) = .ok r2 ∧
      r2.get_tool_names = ["find_clue", "decode_map"] := by
  exact register_tool_set_replaces
    ⟨⟨[{ name := "old_tool", validate := fun a => .ok a, run := fun _ => .ok "x" }]⟩,
     [("treasure_hunt", "old set")]⟩
    "productivity" "new set"
    [{ name := "find_clue", validate := fun a => .ok a, run := fun _ => .ok "c" },
     { name := "decode_map", validate := fun a => .ok a, run := fun _ => .ok "m" }]
    (by decide)

theorem runLoop_final_response_ne (env : ActivityEnv) (aid uq : String) :
    ∀ (fuel : Nat) (cs : ConversationState) (t : Nat) (u er : List String),
      (runLoop env aid uq fuel cs t u er).final_response ≠ "" := by
  intro fuel
  induction fuel with
  | zero =>
      intro cs t u er
      exact append_ne_empty_left _ _ (append_ne_empty_left _ _ (by decide))
  | succ n ih =>
      intro cs t u er
      simp only [runLoop]
      by_cases h1 : cs.iteration_count < env.max_iterations
      · rw [if_pos h1]
        by_cases h2 : env.timeout_seconds < env.elapsed cs.iteration_count
        · rw [if_pos h2]
          exact append_ne_empty_left _ _ (append_ne_empty_left _ _ (by decide))
        · rw [if_neg h2]
          split
          · exact pyOrStr_ne_empty _ _ (by decide)
          · exact append_ne_empty_left _ _ (by decide)
          · split
            · exact pyOrStr_ne_empty _ _ (by decide)
            · exact ih _ _ _ _
          · exact ih _ _ _ _
      · rw [if_neg h1]
        exact append_ne_empty_left _ _ (append_ne_empty_left _ _ (by decide))

/-- Claim C6: every terminal ActivityResult produced by `run_activity`
carries a non-empty `final_response`, on the completed, error,
timeout and max-iterations paths alike, including the completed path
whose decision carried no final response. -/
theorem activity_final_response_nonempty (env : ActivityEnv) (uq : String)
    (goal : Option String) (aid : String) :
    (run_activity env uq goal aid).final_response ≠ "" :=
  runLoop_final_response_ne env aid uq env.max_iterations _ 0 [] []

theorem runLoop_error_step (env : ActivityEnv) (aid uq : String) (fuel : Nat)
    (cs : ConversationState) (t : Nat) (u er : List String)
    (h1 : cs.iteration_count < env.max_iterations)
    (h2 : ¬ env.timeout_seconds < env.elapsed cs.iteration_count)
    (hd : (getNextAction env.tool_names env.loop_max
        (env.oracle { cs with iteration_count := cs.iteration_count + 1 })
        { cs with iteration_count := cs.iteration_count + 1 }).action_type
        = .ERROR_RECOVERY) :
    (runLoop env aid uq (fuel + 1) cs t u er).status = "error_recovery" ∧
    (runLoop env aid uq (fuel + 1) cs t u er).total_iterations
      = cs.iteration_count + 1 := by
  simp only [runLoop]
  rw [if_pos h1, if_neg h2, hd]
  exact ⟨rfl, rfl⟩

/-- Counterexample for C1: with `max_iterations = 3`, an oracle that
always returns `should_continue = true` with no tool use, and no
timeout, the activity does NOT end with status max_iterations after 3
iterations: it ends after 1 iteration with status error_recovery,
because the continue path of `_create_action_decision` evaluates the
missing enum member `ActionType.CONTINUE` (manual_agent_loop.py
line 210), whose AttributeError is converted into an ERROR_RECOVERY
decision, which terminates the activity immediately. -/
theorem max_iterations_scenario_cex :
    (run_activity c1Env "find the treasure" none "act1").status = "error_recovery" ∧
    (run_activity c1Env "find the treasure" none "act1").total_iterations = 1 ∧
    ¬ ((run_activity c1Env "find the treasure" none "act1").status = "max_iterations" ∧
       (run_activity c1Env "find the treasure" none "act1").total_iterations = 3) := by
  refine ⟨by decide, by decide, ?_⟩
  intro h
  have h1 : (run_activity c1Env "find the treasure" none "act1").status
      = "error_recovery" := by decide
  rw [h1] at h
  exact absurd h.1 (by decide)

/-- Claim C1 as amended: for a run with `max_iterations = 3` whose
oracle on every iteration returns `should_continue = true` and no tool
use, and whose timeout is not exceeded at the first check, the
activity ends after exactly 1 iteration with status error_recovery
(not max_iterations after 3): the CONTINUE branch of the decision
conversion raises AttributeError, which the agent loop converts into a
terminal ERROR_RECOVERY decision. -/
theorem max_iterations_scenario_amended (env : ActivityEnv) (uq : String)
    (goal : Option String) (aid : String)
    (hmax : env.max_iterations = 3)
    (horacle : ∀ cs : ConversationState, ∃ ro : ReasoningOutput,
      env.oracle cs = .ok ro ∧ ro.should_use_tools = false ∧ ro.should_continue = true)
    (htime : env.elapsed 0 ≤ env.timeout_seconds) :
    (run_activity env uq goal aid).status = "error_recovery" ∧
    (run_activity env uq goal aid).total_iterations = 1 := by
  have hrun : run_activity env uq goal aid = runLoop env aid uq env.max_iterations
      { user_query := uq
        goal := goal
        iteration_count := 0
        conversation_history := []
        last_tool_results := none
        activity_id := some aid
        max_iterations := some env.max_iterations
        start_time := some 0
        tool_set_name := none } 0 [] [] := rfl
  rw [hrun, hmax]
  have hstep := runLoop_error_step env aid uq 2
    { user_query := uq
      goal := goal
      iteration_count := 0
      conversation_history := []
      last_tool_results := none
      activity_id := some aid
      max_iterations := some 3
      start_time := some 0
      tool_set_name := none } 0 [] []
    (by show (0 : Nat) < env.max_iterations; rw [hmax]; omega)
    (by exact Nat.not_lt.mpr htime)
    ?hd
  · exact ⟨hstep.1, hstep.2⟩
  case hd =>
    obtain ⟨ro, hor, hsut, hsc⟩ := horacle
      { user_query := uq
        goal := goal
        iteration_count := 0 + 1
        conversation_history := []
        last_tool_results := none
        activity_id := some aid
        max_iterations := some 3
        start_time := some 0
        tool_set_name := none }
    show (getNextAction env.tool_names env.loop_max
        (env.oracle
          { user_query := uq
            goal := goal
            iteration_count := 0 + 1
            conversation_history := []
            last_tool_results := none
            activity_id := some aid
            max_iterations := some 3
            start_time := some 0
            tool_set_name := none })
        { user_query := uq
          goal := goal
          iteration_count := 0 + 1
          conversation_history := []
          last_tool_results := none
          activity_id := some aid
          max_iterations := some 3
          start_time := some 0
          tool_set_name := none }).action_type = .ERROR_RECOVERY
    rw [hor, getNextAction_ok_eq]
    have hvred : validateReasoningOutput env.tool_names 1 3 ro = ro := by
      unfold validateReasoningOutput
      rw [show validateStep1 1 3 ro = ro from by
            unfold validateStep1
            rw [if_neg (by omega)]]
      rw [show validateStep2 env.tool_names ro = ro from by
            unfold validateStep2
            rw [if_neg (by simp [hsut])]]
      rw [show validateStep3 ro = ro from by
            unfold validateStep3
            rw [if_neg (by simp [hsut])]]
      rw [show validateStep4 ro = ro from by
            unfold validateStep4
            rw [if_neg (by simp [hsc])]]
    have hcast : validateReasoningOutput env.tool_names
        (ConversationState.iteration_count
          { user_query := uq
            goal := goal
            iteration_count := 0 + 1
            conversation_history := []
            last_tool_results := none
            activity_id := some aid
            max_iterations := some 3
            start_time := some 0
            tool_set_name := none })
        (pyOrNat (ConversationState.max_iterations
          { user_query := uq
            goal := goal
            iteration_count := 0 + 1
            conversation_history := []
            last_tool_results := none
            activity_id := some aid
            max_iterations := some 3
            start_time := some 0
            tool_set_name := none }) env.loop_max) ro = ro := hvred
    rw [hcast, createActionDecision_raises env.loop_max ro _
      (by simp [hsut]) (by simp [hsc])]
    rfl

/-- Witness for the amended C1 at the concrete environment `c1Env`. -/
theorem max_iterations_scenario_amended_witness :
    (run_activity c1Env "where is the gold" none "act2").status = "error_recovery" ∧
    (run_activity c1Env "where is the gold" none "act2").total_iterations = 1 := by
  exact max_iterations_scenario_amended c1Env "where is the gold" none "act2" rfl
    (fun _ => ⟨c1OracleOutput, rfl, rfl, rfl⟩) (by decide)

/-- Counterexample for C7: with `max_history_length = 0` and
`auto_summarize_threshold = 0` (which satisfy the claimed side
condition threshold ≥ max), adding one entry to an empty history of
length `auto_summarize_threshold` triggers compression, but the
Python slice `entries[-0:]` is the WHOLE list, so on successful
summarization the result has length 2, not `max_history_length + 1 = 1`,
and on failed summarization the result is the whole updated list, not
the most recent `max_history_length = 0` entries. -/
theorem history_compression_cex :
    (addConversationEntry ⟨0, 0⟩ (fun _ => some ("S", "C")) [] c7Entry).length = 2 ∧
    ¬ (addConversationEntry ⟨0, 0⟩ (fun _ => some ("S", "C")) [] c7Entry).length = 0 + 1 ∧
    addConversationEntry ⟨0, 0⟩ (fun _ => none) [] c7Entry = [c7Entry] ∧
    ¬ addConversationEntry ⟨0, 0⟩ (fun _ => none) [] c7Entry = [] := by
  exact ⟨by decide, by decide, by decide, by decide⟩

/-- Claim C7 as amended: additionally requiring
`max_history_length ≥ 1` (so the Python negative slices behave as
"last m entries").  For a history of length exactly
`auto_summarize_threshold`, adding one entry triggers compression:
when the summarizer succeeds the result is one synthetic summary entry
(iteration 0, user input "[COMPRESSED HISTORY]") followed by the most
recent `max_history_length` entries of the updated list, so it has
length `max_history_length + 1`; when the summarizer fails the result
is exactly the most recent `max_history_length` entries. -/
theorem history_compression_amended (cm : ConversationManager)
    (compressor : String → Option (String × String))
    (entries : List ConversationEntry) (new_entry : ConversationEntry)
    (hM : 1 ≤ cm.max_history_length)
    (hMT : cm.max_history_length ≤ cm.auto_summarize_threshold)
    (hlen : entries.length = cm.auto_summarize_threshold) :
    (∀ ch pc, compressor (formatConversationEntries
        (pySliceDropLast cm.max_history_length (entries ++ [new_entry]))) = some (ch, pc) →
      addConversationEntry cm compressor entries new_entry
          = summaryEntry ch pc ::
            (entries ++ [new_entry]).drop
              ((entries ++ [new_entry]).length - cm.max_history_length) ∧
      (addConversationEntry cm compressor entries new_entry).length
          = cm.max_history_length + 1 ∧
      (summaryEntry ch pc).iteration = 0 ∧
      (summaryEntry ch pc).user_input = "[COMPRESSED HISTORY]") ∧
    (compressor (formatConversationEntries
        (pySliceDropLast cm.max_history_length (entries ++ [new_entry]))) = none →
      addConversationEntry cm compressor entries new_entry
          = (entries ++ [new_entry]).drop
              ((entries ++ [new_entry]).length - cm.max_history_length) ∧
      (addConversationEntry cm compressor entries new_entry).length
          = cm.max_history_length) := by
  have hlen2 : (entries ++ [new_entry]).length = cm.auto_summarize_threshold + 1 := by
    simp [hlen]
  have hgt : cm.auto_summarize_threshold < (entries ++ [new_entry]).length := by
    rw [hlen2]; omega
  have hnotle : ¬ (entries ++ [new_entry]).length ≤ cm.max_history_length := by
    rw [hlen2]; omega
  have hadd : addConversationEntry cm compressor entries new_entry
      = compressHistory cm compressor (entries ++ [new_entry]) := by
    simp only [addConversationEntry]
    rw [if_pos hgt]
  have hslice : pySliceLast cm.max_history_length (entries ++ [new_entry])
      = (entries ++ [new_entry]).drop
          ((entries ++ [new_entry]).length - cm.max_history_length) := by
    unfold pySliceLast
    rw [if_neg (by omega)]
  have hlend : ((entries ++ [new_entry]).drop
      ((entries ++ [new_entry]).length - cm.max_history_length)).length
      = cm.max_history_length := by
    rw [List.length_drop, hlen2]
    omega
  have hcomp_eq : compressHistory cm compressor (entries ++ [new_entry])
      = match compressor (formatConversationEntries
          (pySliceDropLast cm.max_history_length (entries ++ [new_entry]))) with
        | some (ch, pc) =>
            summaryEntry ch pc :: pySliceLast cm.max_history_length (entries ++ [new_entry])
        | none => pySliceLast cm.max_history_length (entries ++ [new_entry]) := by
    simp only [compressHistory]
    rw [if_neg hnotle]
  constructor
  · intro ch pc hc
    refine ⟨?_, ?_, rfl, rfl⟩
    · rw [hadd, hcomp_eq, hc, hslice]
    · rw [hadd, hcomp_eq, hc, hslice, List.length_cons, hlend]
  · intro hc
    refine ⟨?_, ?_⟩
    · rw [hadd, hcomp_eq, hc, hslice]
    · rw [hadd, hcomp_eq, hc, hslice, hlend]

/-- Witness for the amended C7 at concrete inputs: history of length 3
with threshold 3 and max length 2, successful summarizer. -/
theorem history_compression_amended_witness :
    addConversationEntry ⟨2, 3⟩ (fun _ => some ("S", "C"))
        [c7Entry, c7Entry, c7Entry] c7Entry
      = summaryEntry "S" "C" ::
        ([c7Entry, c7Entry, c7Entry] ++ [c7Entry]).drop
          (([c7Entry, c7Entry, c7Entry] ++ [c7Entry]).length - 2) ∧
    (addConversationEntry ⟨2, 3⟩ (fun _ => some ("S", "C"))
        [c7Entry, c7Entry, c7Entry] c7Entry).length = 2 + 1 ∧
    (summaryEntry "S" "C").iteration = 0 ∧
    (summaryEntry "S" "C").user_input = "[COMPRESSED HISTORY]" := by
  exact (history_compression_amended ⟨2, 3⟩ (fun _ => some ("S", "C"))
    [c7Entry, c7Entry, c7Entry] c7Entry (by decide) (by decide) (by decide)).1 "S" "C" rfl

theorem runLoop_history_eq (env : ActivityEnv) (aid uq : String) :
    ∀ (fuel : Nat) (cs : ConversationState) (t : Nat) (u er : List String),
      (runLoop env aid uq fuel cs t u er).conversation_state.conversation_history
        = cs.conversation_history
          ++ entriesOfTrace env uq cs.iteration_count (runTrace env uq fuel cs) := by
  intro fuel
  induction fuel with
  | zero =>
      intro cs t u er
      simp [runLoop, runTrace, entriesOfTrace, createMaxIterationsResult]
  | succ n ih =>
      intro cs t u er
      simp only [runLoop, runTrace]
      by_cases h1 : cs.iteration_count < env.max_iterations
      · rw [if_pos h1, if_pos h1]
        by_cases h2 : env.timeout_seconds < env.elapsed cs.iteration_count
        · rw [if_pos h2, if_pos h2]
          simp [entriesOfTrace, createTimeoutResult]
        · rw [if_neg h2, if_neg h2]
          cases hd : (getNextAction env.tool_names env.loop_max
              (env.oracle { cs with iteration_count := cs.iteration_count + 1 })
              { cs with iteration_count := cs.iteration_count + 1 }).action_type with
          | FINAL_RESPONSE =>
              simp [entriesOfTrace, hd, createSuccessResult]
          | ERROR_RECOVERY =>
              simp [entriesOfTrace, hd, createErrorResult]
          | TOOL_EXECUTION =>
              by_cases hc : (!(getNextAction env.tool_names env.loop_max
                  (env.oracle { cs with iteration_count := cs.iteration_count + 1 })
                  { cs with iteration_count := cs.iteration_count + 1 }).should_continue) = true
              · rw [if_pos hc, if_pos hc]
                simp [entriesOfTrace, hd, createSuccessResult, entryForDecision]
              · rw [if_neg hc, if_neg hc]
                rw [ih]
                simp [entriesOfTrace, hd, entryForDecision]
          | GOAL_CHECK =>
              rw [ih]
              simp [entriesOfTrace, hd]
      · rw [if_neg h1, if_neg h1]
        simp [entriesOfTrace, createMaxIterationsResult]

theorem entriesOfTrace_length (env : ActivityEnv) (uq : String) :
    ∀ (tr : List ActionDecision) (c : Nat),
      (entriesOfTrace env uq c tr).length
        = (tr.filter (fun d => decide (d.action_type = .TOOL_EXECUTION))).length := by
  intro tr
  induction tr with
  | nil => intro c; simp [entriesOfTrace]
  | cons d ds ih =>
      intro c
      by_cases hd : d.action_type = .TOOL_EXECUTION
      · simp [entriesOfTrace, hd, ih]
      · simp [entriesOfTrace, hd, ih]

theorem entriesOfTrace_iterations (env : ActivityEnv) (uq : String) :
    ∀ (tr : List ActionDecision) (c : Nat),
      (entriesOfTrace env uq c tr).map (fun e => e.iteration)
        = ((List.enumFrom c tr).filter
            (fun p => decide (p.2.action_type = .TOOL_EXECUTION))).map
            (fun p => p.1 + 1) := by
  intro tr
  induction tr with
  | nil => intro c; simp [entriesOfTrace]
  | cons d ds ih =>
      intro c
      by_cases hd : d.action_type = .TOOL_EXECUTION
      · simp [entriesOfTrace, List.enumFrom, hd, ih, entryForDecision]
      · simp [entriesOfTrace, List.enumFrom, hd, ih]

theorem entriesOfTrace_user_input (env : ActivityEnv) (uq : String) :
    ∀ (tr : List ActionDecision) (c : Nat) (e : ConversationEntry),
      e ∈ entriesOfTrace env uq c tr →
      e.user_input = (if e.iteration = 1 then uq else "Continue") := by
  intro tr
  induction tr with
  | nil =>
      intro c e he
      simp [entriesOfTrace] at he
  | cons d ds ih =>
      intro c e he
      by_cases hd : d.action_type = .TOOL_EXECUTION
      · simp only [entriesOfTrace, hd, if_pos, List.singleton_append, List.mem_cons] at he
        rcases he with he1 | he2
        · subst he1
          simp [entryForDecision]
        · exact ih (c + 1) e he2
      · simp only [entriesOfTrace, hd, if_neg, List.nil_append] at he
        exact ih (c + 1) e (by simpa using he)

/-- Claim C10: the conversation history of a whole `run_activity` run
grows only on TOOL_EXECUTION iterations: its final length equals the
number of decisions in the run trace whose action type is
TOOL_EXECUTION (not the total iteration count); the entries carry
exactly the 1-based iteration indices at which those decisions
occurred; and each entry records the original user query as user
input at iteration 1 and the literal "Continue" at later iterations. -/
theorem history_appends_only_tool_iterations (env : ActivityEnv) (uq : String)
    (goal : Option String) (aid : String) :
    (run_activity env uq goal aid).conversation_state.conversation_history.length
      = ((run_activity_trace env uq goal aid).filter
          (fun d => decide (d.action_type = .TOOL_EXECUTION))).length ∧
    (run_activity env uq goal aid).conversation_state.conversation_history.map
        (fun e => e.iteration)
      = ((List.enum (run_activity_trace env uq goal aid)).filter
          (fun p => decide (p.2.action_type = .TOOL_EXECUTION))).map
          (fun p => p.1 + 1) ∧
    ∀ e ∈ (run_activity env uq goal aid).conversation_state.conversation_history,
      e.user_input = (if e.iteration = 1 then uq else "Continue") := by
  have hkey : (run_activity env uq goal aid).conversation_state.conversation_history
      = entriesOfTrace env uq 0 (run_activity_trace env uq goal aid) := by
    have h1 : run_activity env uq goal aid = runLoop env aid uq env.max_iterations
        { user_query := uq
          goal := goal
          iteration_count := 0
          conversation_history := []
          last_tool_results := none
          activity_id := some aid
          max_iterations := some env.max_iterations
          start_time := some 0
          tool_set_name := none } 0 [] [] := rfl
    have h2 : run_activity_trace env uq goal aid = runTrace env uq env.max_iterations
        { user_query := uq
          goal := goal
          iteration_count := 0
          conversation_history := []
          last_tool_results := none
          activity_id := some aid
          max_iterations := some env.max_iterations
          start_time := some 0
          tool_set_name := none } := rfl
    rw [h1, h2, runLoop_history_eq env aid uq env.max_iterations _ 0 [] []]
    simp
  refine ⟨?_, ?_, ?_⟩
  · rw [hkey, entriesOfTrace_length]
  · rw [hkey, entriesOfTrace_iterations]
    rfl
  · intro e he
    exact entriesOfTrace_user_input env uq (run_activity_trace env uq goal aid) 0 e
      (hkey ▸ he)

/-- Witness for C10 at the concrete environment `c10Env`, whose single
iteration executes one echo tool call and stops. -/
theorem history_appends_only_tool_iterations_witness :
    (run_activity c10Env "use echo" none "act3").conversation_state.conversation_history.length
      = ((run_activity_trace c10Env "use echo" none "act3").filter
          (fun d => decide (d.action_type = .TOOL_EXECUTION))).length ∧
    (run_activity c10Env "use echo" none "act3").conversation_state.conversation_history.map
        (fun e => e.iteration)
      = ((List.enum (run_activity_trace c10Env "use echo" none "act3")).filter
          (fun p => decide (p.2.action_type = .TOOL_EXECUTION))).map
          (fun p => p.1 + 1) ∧
    ∀ e ∈ (run_activity c10Env "use echo" none "act3").conversation_state.conversation_history,
      e.user_input = (if e.iteration = 1 then "use echo" else "Continue") := by
  exact history_appends_only_tool_iterations c10Env "use echo" none "act3"
